import Mathlib

/-!
Verification of the job-submission core of `ASEr/cluster.py` against its
natural-language specification.  Python-level behaviour is shallowly embedded:
Python strings become `String`, `str.split` / `re.split` become explicit
recursive functions on `List Char`, exceptions become `Option` / `Except`,
and the polling / retry loops become explicit step functions driven by a
list of external query results.
-/

namespace ASErCluster

/-- Single-quote character, written via its code point so generated shell
text (`date +'%d-%H:%M:%S'`) can be reproduced verbatim. -/
def sq : String := String.singleton (Char.ofNat 39)

/-- Rebuild a string from a character list. -/
def mkStr (l : List Char) : String := ⟨l⟩

/-- Python `str.rstrip()`: drop trailing whitespace. -/
def pyRstrip (s : String) : String :=
  mkStr ((s.toList.reverse.dropWhile Char.isWhitespace).reverse)

/-- Python `str.split(sep)` for a one-character separator: splits at every
occurrence, keeping empty pieces (`"a,,b".split(',') == ["a","","b"]`,
`"".split(',') == [""]`). -/
def splitOnChar (c : Char) : List Char → List (List Char)
  | [] => [[]]
  | x :: xs =>
    match splitOnChar c xs with
    | [] => [[]]
    | h :: t => if x = c then [] :: h :: t else (x :: h) :: t

/-- Python `s.split(sep)` on strings, single-character separator. -/
def pySplit (s : String) (c : Char) : List String :=
  (splitOnChar c s.toList).map mkStr

/-- Python `s[k]` on a string: the one-character string at index `k`
(the caller checks the bound; out of range gives `""` and is guarded
separately where the source could raise `IndexError`). -/
def pyCharAt (s : String) (k : Nat) : String :=
  match s.toList.get? k with
  | some c => String.singleton c
  | none => ""

/-- Python `str.endswith(suffix)`. -/
def pyEndsWith (s suffix : String) : Bool :=
  suffix.toList.isSuffixOf s.toList

/-- Lines of a piece of generated text (split on newline). -/
def pyLines (s : String) : List String := pySplit s '\n'

/-! ## Backend selection (`QUEUE`, `ALLOWED_QUEUES`, `get_cluster_environment`,
`check_queue`), cluster.py lines 67-68, 82-103, 464-468. -/

/-- cluster.py line 68: `ALLOWED_QUEUES = ['torque', 'slurm', 'normal']`. -/
def ALLOWED_QUEUES : List String := ["torque", "slurm", "normal"]

/-- cluster.py lines 82-103: probe for `sbatch`, then `qsub`; if neither is
found the recorded value is the string `'local'`.  The two booleans model
the results of the two `which` probes. -/
def get_cluster_environment (hasSbatch hasQsub : Bool) : String :=
  if hasSbatch then "slurm"
  else if hasQsub then "torque"
  else "local"

/-- cluster.py lines 464-468: `check_queue` raises `ClusterError` whenever
`QUEUE` is not in `ALLOWED_QUEUES`; every core operation (`wait`, `submit`,
`submit_file`, `make_job_file`, `clean`) calls it first. -/
def check_queue (q : String) : Except String Unit :=
  if q ∉ ALLOWED_QUEUES then
    Except.error ("QUEUE value " ++ q ++ " is not recognized, " ++
      "should be: normal, torque, or slurm")
  else
    Except.ok ()

/-! ## Poller, Slurm branch (`wait`, cluster.py lines 168-189).

The source does
`q = check_output(['squeue', '-h', '-o', "'%A,%t'"]).decode().rstrip().split(',')`
and then treats each comma-separated piece `i` as if it were an
`(id, state)` pair, indexing `i[0]` and `i[1]`, which on a string yields
single characters.  One poll-cycle body (lines 177-186) is embedded as a
function from the decoded tool output and the tracked job list to the new
tracked job list; `none` models the `IndexError` raised when some piece
has fewer than two characters (evaluation of `i[1]`). -/

def slurmCycle (raw : String) (jobs : List String) : Option (List String) :=
  let q := pySplit (pyRstrip raw) ','
  if q.all (fun i => decide (2 ≤ i.length)) then
    let complete := (q.filter (fun i => pyCharAt i 1 == "CD")).map (fun i => pyCharAt i 0)
    let failed := (q.filter (fun i => pyCharAt i 1 == "F")).map (fun i => pyCharAt i 0)
    let all := q.map (fun i => pyCharAt i 0)
    some ((((jobs.filter (fun i => !(all.contains i))).filter
      (fun i => !(complete.contains i))).filter
      (fun i => !(failed.contains i))))
  else
    none

/-- Decoded `squeue -h -o '%A,%t'` output for the listing
`[("100","R"),("101","CD")]`: because the format argument carries literal
single quotes, each line is quoted. -/
def squeueRawBoth : String :=
  sq ++ "100,R" ++ sq ++ "\n" ++ sq ++ "101,CD" ++ sq

/-- Decoded `squeue` output once job 101 has been dropped from the listing:
only `[("100","R")]` remains. -/
def squeueRawOne : String := sq ++ "100,R" ++ sq

/-! ## Poller, Torque branch (`wait`, cluster.py lines 133-167). -/

/-- Python `re.split(' +', line)`: split on maximal runs of one or more
spaces, keeping the empty pieces produced when the string starts or ends
with spaces (cluster.py line 138, `s = re.compile(r' +')`). -/
def reSplit1 : List Char → List (List Char)
  | [] => [[]]
  | [c] => if c = ' ' then [[], []] else [[c]]
  | c :: c2 :: cs =>
    let r := reSplit1 (c2 :: cs)
    if c = ' ' then
      if c2 = ' ' then r else [] :: r
    else
      match r with
      | [] => [[c]]
      | h :: t => (c :: h) :: t

/-- Number of leading spaces of a character list. -/
def countLeadingSpaces : List Char → Nat
  | [] => 0
  | c :: cs => if c = ' ' then countLeadingSpaces cs + 1 else 0

/-- Python `re.split(r' {2,100}', line)` (cluster.py line 152): a separator
is a greedy match of between 2 and 100 consecutive spaces.  Fuel-driven so
the recursion is structural; `reSplit2` supplies enough fuel. -/
def reSplit2Fuel : Nat → List Char → List (List Char)
  | _, [] => [[]]
  | 0, l => [l]
  | fuel + 1, c :: cs =>
    if c = ' ' ∧ 1 ≤ countLeadingSpaces cs then
      let eat := min (1 + countLeadingSpaces cs) 100
      [] :: reSplit2Fuel fuel ((c :: cs).drop eat)
    else
      match reSplit2Fuel fuel cs with
      | [] => [[c]]
      | h :: t => (c :: h) :: t

/-- Split on runs of 2-100 spaces, as a function on strings. -/
def reSplit2 (s : String) : List String :=
  (reSplit2Fuel (s.toList.length + 1) s.toList).map mkStr

/-- The `qstat -a` output lines:
`q = check_output(['qstat', '-a']).decode().rstrip().split('\n')`
(cluster.py line 144). -/
def torqueLines (raw : String) : List String := pySplit (pyRstrip raw) '\n'

/-- Header token `re.split(r' {2,100}', q[3])[9]` (cluster.py line 152);
`none` models the `IndexError` when the output has fewer than four lines
or the fourth line fewer than ten wide-split tokens. -/
def torqueHeaderTok (raw : String) : Option String :=
  match (torqueLines raw).get? 3 with
  | none => none
  | some l => (reSplit2 l).get? 9

/-- A data row split into whitespace-delimited fields, `i = s.split(j)`
(cluster.py line 157). -/
def torqueRow (line : String) : List String :=
  (reSplit1 line.toList).map mkStr

/-- The data rows `q[5:]` (cluster.py lines 156, 161). -/
def torqueDataRows (raw : String) : List String := (torqueLines raw).drop 5

/-- First dot-delimited token of a job-id field, `i[0].split('.')[0]`
(cluster.py line 159).  `pySplit` never returns `[]`, so the default of
`headD` is never used. -/
def firstDotTok (s : String) : String := (pySplit s '.').headD ""

/-- The `complete` list built by cluster.py lines 155-159: ids of data rows
whose tenth field is `'C'`; `none` models the `IndexError` raised when a
row has fewer than ten fields (evaluation of `i[9]`). -/
def torqueCompleteAux : List String → Option (List String)
  | [] => some []
  | r :: rs =>
    match (torqueRow r).get? 9 with
    | none => none
    | some st =>
      match torqueCompleteAux rs with
      | none => none
      | some l =>
        some (if st = "C" then firstDotTok ((torqueRow r).headD "") :: l else l)

/-- The completed-job ids of a `qstat` output, when no row raises. -/
def torqueCompleteOpt (raw : String) : Option (List String) :=
  torqueCompleteAux (torqueDataRows raw)

/-- The `all` list of cluster.py line 161: the first dot-token of the first
field of every data row. -/
def torqueAll (raw : String) : List String :=
  (torqueDataRows raw).map (fun r => firstDotTok ((torqueRow r).headD ""))

/-- One successful-query poll-cycle body of the Torque branch of `wait`
(cluster.py lines 151-164): header check, completed list, all list, then
`jobs = [j for j in jobs if j in all]` and
`jobs = [j for j in jobs if j not in complete]`.  `none` models an
exception (`IndexError` from a malformed row or header position, or the
`ClusterError` of line 153 when the header token is not `'S'`); all of
these propagate out of `wait`. -/
def torqueCycle (raw : String) (jobs : List String) : Option (List String) :=
  match torqueHeaderTok raw with
  | none => none
  | some t =>
    if t ≠ "S" then none
    else
      match torqueCompleteOpt raw with
      | none => none
      | some complete =>
        let all := torqueAll raw
        some ((jobs.filter (fun j => all.contains j)).filter
          (fun j => !(complete.contains j)))

/-! ## One full iteration of the Torque `while True` loop, including the
`qstat` invocation of cluster.py lines 142-150.  The counter `c` is
assigned `0` at the top of every iteration (line 142), so the
`if c == 5: raise` of line 146 can never fire. -/

/-- Result of one `check_output(['qstat', '-a'])` call: the tool either
exits non-zero (`CalledProcessError`) or yields decoded output. -/
inductive TorqueQuery where
  | fail
  | ok (raw : String)

/-- What one iteration of the Torque polling loop does next. -/
inductive TorqueOutcome where
  | raised
  | finished
  | sleepRetry (secs : Nat) (jobs : List String)
  | sleepNext (secs : Nat) (jobs : List String)
deriving DecidableEq

/-- One iteration of the Torque branch of `wait` (cluster.py lines
141-167), driven by the query result of that iteration.  On
`CalledProcessError` the counter — freshly reset to 0 by line 142 — is
compared with 5, incremented, and the loop sleeps 2 seconds and retries
with the same tracked jobs; on success the cycle body runs (exception ⇒
`raised`, empty trimmed list ⇒ `wait` returns, otherwise sleep 2 seconds
and poll again). -/
def torqueIter (qr : TorqueQuery) (jobs : List String) : TorqueOutcome :=
  let c := 0
  match qr with
  | TorqueQuery.fail =>
    if c = 5 then TorqueOutcome.raised else TorqueOutcome.sleepRetry 2 jobs
  | TorqueQuery.ok raw =>
    match torqueCycle raw jobs with
    | none => TorqueOutcome.raised
    | some js =>
      if js = [] then TorqueOutcome.finished else TorqueOutcome.sleepNext 2 js

/-- State of the Torque `wait` loop after consuming a finite prefix of
query results. -/
inductive TorqueRunState where
  | raised
  | returned
  | polling (jobs : List String)
deriving DecidableEq

/-- Run the Torque polling loop of `wait` over a list of successive query
results. -/
def torqueRun : List TorqueQuery → List String → TorqueRunState
  | [], jobs => TorqueRunState.polling jobs
  | qr :: rest, jobs =>
    match torqueIter qr jobs with
    | TorqueOutcome.raised => TorqueRunState.raised
    | TorqueOutcome.finished => TorqueRunState.returned
    | TorqueOutcome.sleepRetry _ js => torqueRun rest js
    | TorqueOutcome.sleepNext _ js => torqueRun rest js

/-- A well-formed `qstat -a` output (header token 9 of line 3 is `'S'`)
listing exactly one job, `123`, in state `R`. -/
def qstatRawRunning : String :=
  "host:\n\nhdr\nA  B  C  D  E  F  G  H  I  S  T\n-----\n" ++
    "123.host u q n 1 1 1 1gb 01:00 R 00:10"

/-- The same listing with job `123` in state `C` (Completed). -/
def qstatRawComplete : String :=
  "host:\n\nhdr\nA  B  C  D  E  F  G  H  I  S  T\n-----\n" ++
    "123.host u q n 1 1 1 1gb 01:00 C 00:10"

/-! ## Submitter retry loop (`submit_file`, cluster.py lines 268-279 for the
Slurm branch and 288-299 for the Torque branch — the two retry loops are
textually identical).  The loop is modelled for a submission tool that
fails (`CalledProcessError`) on every invocation, which is the situation
the claim quantifies over; each iteration invokes the tool once, and on
failure checks `count == 5` (raise) else increments `count` and sleeps
1 second.  `fuel` only bounds the recursion; `none` means the fuel ran
out before the loop raised. -/

def submitRetryRun : Nat → Nat → Nat → Nat → Option (Nat × Nat)
  | 0, _, _, _ => none
  | fuel + 1, count, invocations, sleeps =>
    if count = 5 then some (invocations + 1, sleeps)
    else submitRetryRun fuel (count + 1) (invocations + 1) (sleeps + 1)

/-! ## ScriptBuilder (`make_job_file`, cluster.py lines 315-404). -/

/-- The module-load block of cluster.py lines 339-341:
`precmd = ''` followed by `precmd += 'module load {m}\n'` per module. -/
def modulesBlock (modules : List String) : String :=
  modules.foldl (fun acc m => acc ++ ("module load " ++ m ++ "\n")) ""

/-- The dedented pre-amble of cluster.py lines 342-346: change into the
working directory, print a timestamp, announce the job name. -/
def preamble (usedir name : String) : String :=
  "cd " ++ usedir ++ "\n" ++
    "date +" ++ sq ++ "%d-%H:%M:%S" ++ sq ++ "\n" ++
    "echo \"Running " ++ name ++ "\"\n"

/-- `precmd` as assembled by cluster.py lines 339-346: module-load lines
(for every backend — the block is built before any branching on `QUEUE`)
followed by the shared pre-amble. -/
def precmd (modules : List String) (usedir name : String) : String :=
  modulesBlock modules ++ preamble usedir name

/-- The dedented post-amble `pstcmd` of cluster.py lines 347-354: capture
the exit code, print a completion timestamp, report a non-zero exit to
stderr. -/
def pstcmd : String :=
  "exitcode=$?\n" ++
    "echo Done\n" ++
    "date +" ++ sq ++ "%d-%H:%M:%S" ++ sq ++ "\n" ++
    "if [[ $exitcode != 0 ]]; then\n" ++
    "    echo Exited with code: $? >&2\n" ++
    "fi\n"

/-- `os.path.join` for an absolute directory (no trailing slash) and a
relative file name, the only shape `make_job_file` produces. -/
def pathJoin (a b : String) : String := a ++ "/" ++ b

/-- The `srun` launch line written into the sbatch file by cluster.py
lines 370-371: `'srun bash {}.script\n'.format(os.path.join(usedir, name))`. -/
def srunLine (usedir name : String) : String :=
  "srun bash " ++ pathJoin usedir name ++ ".script"

/-- Content of the `<name>.cluster.sbatch` file (cluster.py lines 357-371).
`partition`, `time` and `mem` are optional exactly like the keyword
arguments; `cores` models `cores = cores if cores else 1` (line 336). -/
def slurmSbatchContent (partition time : Option String) (mem : Option Nat)
    (cores : Nat) (usedir name : String) : String :=
  "#!/bin/bash\n" ++
    (match partition with
      | some p => "#SBATCH -p " ++ p ++ "\n"
      | none => "") ++
    "#SBATCH --ntasks 1\n" ++
    "#SBATCH --cpus-per-task " ++ toString cores ++ "\n" ++
    (match time with
      | some t => "#SBATCH --time=" ++ t ++ "\n"
      | none => "") ++
    (match mem with
      | some m => "#SBATCH --mem=" ++ toString m ++ "\n"
      | none => "") ++
    "#SBATCH -o " ++ name ++ ".cluster.out\n" ++
    "#SBATCH -e " ++ name ++ ".cluster.err\n" ++
    "cd " ++ usedir ++ "\n" ++
    srunLine usedir name ++ "\n"

/-- Content of the companion script written by cluster.py lines 372-377. -/
def slurmCompanionContent (modules : List String)
    (usedir name command : String) : String :=
  "#!/bin/bash\n" ++
    "mkdir -p $LOCAL_SCRATCH\n" ++
    precmd modules usedir name ++
    command ++ "\n" ++
    pstcmd

/-- The two file paths written by the Slurm branch of `make_job_file`:
`scrpt = os.path.join(usedir, '{}.cluster.sbatch'.format(name))`
(line 356) and `os.path.join(usedir, name + '.script')` (line 372). -/
def slurmFileNames (usedir name : String) : List String :=
  [pathJoin usedir (name ++ ".cluster.sbatch"),
   pathJoin usedir (name ++ ".script")]

/-- Content of the `<name>.cluster.qsub` file written by the Torque branch
(cluster.py lines 379-394). -/
def torqueScriptContent (partition time : Option String) (mem : Option Nat)
    (cores : Nat) (modules : List String)
    (usedir name command : String) : String :=
  "#!/bin/bash\n" ++
    (match partition with
      | some p => "#PBS -q " ++ p ++ "\n"
      | none => "") ++
    "#PBS -l nodes=1:ppn=" ++ toString cores ++ "\n" ++
    (match time with
      | some t => "#PBS -l walltime=" ++ t ++ "\n"
      | none => "") ++
    (match mem with
      | some m => "#PBS mem=" ++ toString m ++ "MB\n"
      | none => "") ++
    "#PBS -o " ++ name ++ ".cluster.out\n" ++
    "#PBS -e " ++ name ++ ".cluster.err\n\n" ++
    "mkdir -p $LOCAL_SCRATCH\n" ++
    precmd modules usedir name ++
    command ++ "\n" ++
    pstcmd

/-- Content of the `<name>.cluster` file written by the normal-mode branch
(cluster.py lines 396-401): shebang, `precmd` (module-load block plus
pre-amble), the command, `pstcmd`. -/
def normalScript (modules : List String) (usedir name command : String) :
    String :=
  "#!/bin/bash\n" ++
    precmd modules usedir name ++
    command ++ "\n" ++
    pstcmd

/-! ## Cleaner (`clean`, cluster.py lines 412-450). -/

/-- The suffix list assembled by cluster.py lines 428-434 for the active
backend. -/
def cleanExtensions (q : String) : List String :=
  let e := [".cluster.err", ".cluster.out"]
  if q = "normal" then e ++ [".cluster"]
  else if q = "slurm" then e ++ [".cluster.sbatch", ".cluster.script"]
  else if q = "torque" then e ++ [".cluster.qsub"]
  else e

/-- `clean` (cluster.py lines 412-450): after `check_queue`, the source
builds `files = [i for i in os.listdir(os.path.abspath(directory)) if
os.path.isfile(i)]` (lines 436-437) and then removes and collects every
file whose name ends with one of the active backend's suffixes (lines
443-448).  Crucially, `os.listdir` enumerates the *target* directory but
`os.path.isfile(i)` — and later `os.remove(f)` (line 447) — receive the
bare name `i`, which Python resolves against the process working
directory.  `listing` models the entries of the target directory and
`cwdFiles` the names that are regular files of the working directory, so
the `files` comprehension is their intersection; `os.remove` (which
deletes the working-directory copy) is modelled as pure collection of
the name (no two suffixes overlap, so each name is collected at most
once). -/
def clean (q : String) (listing cwdFiles : List String) :
    Except String (List String) :=
  match check_queue q with
  | Except.error e => Except.error e
  | Except.ok _ =>
    let exts := cleanExtensions q
    let files := listing.filter (fun i => cwdFiles.contains i)
    if files = [] then Except.ok []
    else
      Except.ok (files.flatMap (fun f =>
        (exts.filter (fun e => pyEndsWith f e)).map (fun _ => f)))

/-! ## Dynamic argument handling of `wait` (cluster.py lines 120-132) and
`submit_file` (cluster.py lines 250-267).  Python runtime values that can
reach those arguments are embedded as `PyVal`. -/

/-- A Python value as passed for job handles / dependencies. -/
inductive PyVal where
  | pyNone
  | pyStr (s : String)
  | pyInt (n : Int)
  | applyResult (id : Nat)
  | pyList (xs : List PyVal)
  | pyTuple (xs : List PyVal)

/-- `isinstance(v, (list, tuple))`. -/
def isListOrTuple : PyVal → Bool
  | PyVal.pyList _ => true
  | PyVal.pyTuple _ => true
  | _ => false

/-- `isinstance(v, (str, int))`. -/
def isStrOrInt : PyVal → Bool
  | PyVal.pyStr _ => true
  | PyVal.pyInt _ => true
  | _ => false

/-- `isinstance(v, (str, int, pool.ApplyResult))` (cluster.py line 124). -/
def isHandle : PyVal → Bool
  | PyVal.pyStr _ => true
  | PyVal.pyInt _ => true
  | PyVal.applyResult _ => true
  | _ => false

/-- Python truthiness of the values above (`if dependencies:`). -/
def pyTruthy : PyVal → Bool
  | PyVal.pyNone => false
  | PyVal.pyStr s => !(s == "")
  | PyVal.pyInt n => !(n == 0)
  | PyVal.applyResult _ => true
  | PyVal.pyList xs => !xs.isEmpty
  | PyVal.pyTuple xs => !xs.isEmpty

/-- Python `str(v)` for the values that can appear as dependency ids;
only the string/integer cases are exercised by the claims. -/
def pyStrOf : PyVal → String
  | PyVal.pyNone => "None"
  | PyVal.pyStr s => s
  | PyVal.pyInt n => toString n
  | PyVal.applyResult _ => "<ApplyResult>"
  | PyVal.pyList _ => "<list>"
  | PyVal.pyTuple _ => "<tuple>"

/-- cluster.py lines 121-122: `if not isinstance(jobs, (list, tuple)):
jobs = [jobs]`. -/
def waitJobsList : PyVal → List PyVal
  | PyVal.pyList xs => xs
  | PyVal.pyTuple xs => xs
  | j => [j]

/-- cluster.py lines 123-126: every sanitized entry must be a string, an
integer, or an `ApplyResult`, else `ClusterError`. -/
def waitCheck (jobs : List PyVal) : Except String (List PyVal) :=
  if jobs.all isHandle then Except.ok jobs
  else Except.error "job must be int, string, or ApplyResult"

/-- The argument sanitizing prefix of `wait`: wrap a bare handle, then
type-check every entry. -/
def waitEntry (v : PyVal) : Except String (List PyVal) :=
  waitCheck (waitJobsList v)

/-- The dependency normalization of `submit_file` (cluster.py lines
254-259): a falsy `dependencies` value is skipped entirely; otherwise a
bare string/integer is wrapped in a list, anything that is then not a
list or tuple raises, and the members are stringified. -/
def depsNormalize (deps : Option PyVal) : Except String (Option (List String)) :=
  match deps with
  | none => Except.ok none
  | some v =>
    if pyTruthy v then
      let v2 := if isStrOrInt v then PyVal.pyList [v] else v
      match v2 with
      | PyVal.pyList xs => Except.ok (some (xs.map pyStrOf))
      | PyVal.pyTuple xs => Except.ok (some (xs.map pyStrOf))
      | _ => Except.error "dependencies must be a list, int, or string."
    else Except.ok none

/-- `':'.join(...)` (cluster.py line 264). -/
def colonJoin : List String → String
  | [] => ""
  | [x] => x
  | x :: xs => x ++ ":" ++ colonJoin xs

/-- The Slurm argument vector built by `submit_file` (cluster.py lines
261-267): with a (truthy) dependency list, a single
`--dependency=afterok:` flag joining all ids with colons. -/
def submitArgsSlurm (script : String) (deps : Option PyVal) :
    Except String (List String) :=
  match depsNormalize deps with
  | Except.error e => Except.error e
  | Except.ok none => Except.ok ["sbatch", script]
  | Except.ok (some ds) =>
    Except.ok ["sbatch", "--dependency=afterok:" ++ colonJoin ds, script]

/-- C1: After EnvironmentDetector runs with neither the Slurm nor the PBS
submission executable present, the recorded backend value is `'local'`,
but `ALLOWED_QUEUES` is `['torque', 'slurm', 'normal']`, so `check_queue`
— executed first by every one of `build`, `submit`, `wait` and `clean` —
rejects the recorded value with a `ClusterError`.  The code contradicts
its own contract (`get_cluster_environment`'s docstring presents
`'local'` as a valid outcome, and the module docstring presents the
detector's result as directly usable): the detected no-cluster value is
never accepted by any core operation. -/
theorem C1_detected_local_rejected_by_every_operation :
    get_cluster_environment false false = "local" ∧
    check_queue (get_cluster_environment false false) =
      Except.error ("QUEUE value local is not recognized, " ++
        "should be: normal, torque, or slurm") ∧
    ("local" ∈ ALLOWED_QUEUES) = False := by
  refine ⟨rfl, rfl, ?_⟩
  simp [ALLOWED_QUEUES]

/-- C2: the claim expects the Slurm poll cycle to remove exactly the jobs
reported `CD`, `F`, or absent from the listing, and in the scenario
(listing `[("100","R"),("101","CD")]`, tracked `["100","101"]`) `wait` to
return one cycle after `101` shows `CD` and is dropped.  The code instead
splits the whole decoded `squeue` output on commas and indexes single
characters of the pieces, so `complete` and `failed` never match a job id
and a tracked id is removed only if it equals one single character of the
listing: on the scenario's first cycle `101` (reported `CD`) stays
tracked, and after `101` is dropped from the listing both jobs still stay
tracked — the tracked set never shrinks and `wait` loops forever. -/
theorem C2_slurm_cycle_removes_nothing_on_scenario :
    slurmCycle squeueRawBoth ["100", "101"] = some ["100", "101"] ∧
    slurmCycle squeueRawOne ["100", "101"] = some ["100", "101"] := by
  exact ⟨rfl, rfl⟩

/-- C3 counterexample: a well-formed `qstat` output listing only job `123`
(state `R`), with tracked job `100`.  Job `100` is absent from the listing
and not reported Completed, yet the poll cycle removes it — the trimmed
list is empty, so `wait` returns.  This refutes the claim that an
absent job is never removed for the PBS-style backend. -/
theorem C3_absent_job_is_removed :
    torqueCycle qstatRawRunning ["100"] = some [] ∧
    torqueCompleteOpt qstatRawRunning = some [] ∧
    torqueAll qstatRawRunning = ["123"] := by
  exact ⟨rfl, rfl, rfl⟩

/-- C3 amended: in a Torque poll cycle that completes without an exception,
a tracked job is kept exactly when it is still present in the status
listing and not reported Completed — equivalently, a job is removed from
the tracked set precisely when it is absent from the listing or
explicitly reported `'C'`. -/
theorem C3_amended_torque_removal_characterization :
    ∀ (raw : String) (jobs res comp : List String) (j : String),
      torqueCycle raw jobs = some res →
      torqueCompleteOpt raw = some comp →
      (j ∈ res ↔ j ∈ jobs ∧ j ∈ torqueAll raw ∧ j ∉ comp) := by
  intro raw jobs res comp j hcyc hcomp
  unfold torqueCycle at hcyc
  rw [hcomp] at hcyc
  split at hcyc
  · exact absurd hcyc (by simp)
  · split at hcyc
    · exact absurd hcyc (by simp)
    · injection hcyc with hres
      subst hres
      simp [List.mem_filter, List.contains, List.elem_eq_mem]
      tauto

/-- Witness for the amended C3 theorem: the listing reports job `123` in
state `C` and the cycle drops it from the tracked pair `["123","99"]`
(`99` being absent is dropped as well), so `123` is not in the trimmed
list. -/
theorem C3_amended_witness :
    ("123" ∈ ([] : List String) ↔
      "123" ∈ ["123", "99"] ∧ "123" ∈ torqueAll qstatRawComplete ∧
        "123" ∉ ["123"]) :=
  C3_amended_torque_removal_characterization qstatRawComplete
    ["123", "99"] [] ["123"] "123" rfl rfl

/-- C6 counterexample: one Torque poll iteration whose `qstat` query fails
(`CalledProcessError`) does not propagate the failure: the counter is
reset to 0 at the top of the iteration, so the `raise` guard cannot fire
and the loop sleeps 2 seconds and retries — even after six consecutive
failures `wait` is still polling, never raising. -/
theorem C6_failed_query_does_not_propagate :
    torqueRun (List.replicate 6 TorqueQuery.fail) ["100"] =
      TorqueRunState.polling ["100"] ∧
    torqueRun (List.replicate 6 TorqueQuery.fail) ["100"] ≠
      TorqueRunState.raised := by
  exact ⟨rfl, by decide⟩

/-- C6 amended: a failed status query during a Torque poll cycle is caught
and retried after a 2-second sleep; because the retry counter is reset at
the top of every iteration, the cap of 5 is never reached and the failure
never propagates to the caller, no matter how many consecutive failures
occur. -/
theorem C6_amended_failed_query_retried_forever :
    ∀ (n : Nat) (jobs : List String),
      torqueRun (List.replicate n TorqueQuery.fail) jobs =
        TorqueRunState.polling jobs := by
  intro n
  induction n with
  | zero => intro jobs; rfl
  | succ k ih => intro jobs; simpa [List.replicate, torqueRun, torqueIter] using ih jobs

/-- C4 counterexample: with a submission tool that fails on every
invocation, the retry loop invokes the tool six times — the initial
attempt plus five retries, since `count == 5` is only checked after a
sixth failure — not the claimed five, before re-raising. -/
theorem C4_six_invocations_not_five :
    submitRetryRun 10 0 0 0 = some (6, 5) ∧ (6 : Nat) ≠ 5 := by
  exact ⟨rfl, by decide⟩

/-- C4 amended: for both HPC backends (the two retry loops are verbatim
identical), a submission tool failing on every invocation is invoked
exactly 6 times (the initial attempt plus 5 retries), with a 1-second
sleep after each of the first 5 failures (5 sleeps, one between each pair
of consecutive attempts), after which the underlying failure is
re-raised. -/
theorem C4_amended_six_invocations_five_sleeps :
    ∀ fuel : Nat, 7 ≤ fuel → submitRetryRun fuel 0 0 0 = some (6, 5) := by
  intro fuel h
  obtain ⟨k, rfl⟩ : ∃ k, fuel = k + 7 := ⟨fuel - 7, by omega⟩
  rfl

/-- Witness for the amended C4 theorem at fuel 10. -/
theorem C4_amended_witness :
    7 ≤ 10 ∧ submitRetryRun 10 0 0 0 = some (6, 5) :=
  ⟨by decide, C4_amended_six_invocations_five_sleeps 10 (by decide)⟩

/-- C5: the Slurm branch of `make_job_file` writes the sbatch file as
`<name>.cluster.sbatch` but writes the companion file as
`os.path.join(usedir, name + '.script')` — `<name>.script`, without the
`.cluster` prefix — and the sbatch file launches exactly that
`<name>.script` path.  This contradicts the module's own docstring
("in slurm is is a .cluster.sbatch and a .cluster.script file"), the
spec's naming invariant, and `clean`, whose Slurm suffix set contains
`.cluster.script` and therefore never matches the companion file the
builder actually writes. -/
theorem C5_slurm_companion_lacks_cluster_prefix :
    slurmFileNames "/work" "job1" =
      ["/work/job1.cluster.sbatch", "/work/job1.script"] ∧
    pyEndsWith "/work/job1.script" ".cluster.script" = false ∧
    ("srun bash /work/job1.script" ∈
      pyLines (slurmSbatchContent none none none 1 "/work" "job1")) ∧
    ".cluster.script" ∈ cleanExtensions "slurm" := by
  refine ⟨rfl, by decide, by decide, by decide⟩

/-- Exact content of `clean`'s result: a name is collected precisely when
it appears in the target directory's listing, also resolves to a regular
file of the process working directory (the `os.path.isfile(i)` check),
and ends in one of the active backend's suffixes. -/
theorem clean_mem_characterization :
    ∀ (q : String) (listing cwdFiles res : List String) (f : String),
      clean q listing cwdFiles = Except.ok res →
      (f ∈ res ↔ f ∈ listing ∧ f ∈ cwdFiles ∧
        ∃ e ∈ cleanExtensions q, pyEndsWith f e = true) := by
  intro q listing cwdFiles res f h
  unfold clean at h
  split at h
  · exact absurd h (by simp)
  · dsimp only at h
    split at h
    · injection h with h2
      subst h2
      rename_i hfiles
      rw [List.filter_eq_nil_iff] at hfiles
      simp only [List.not_mem_nil, false_iff]
      rintro ⟨hl, hc, -⟩
      exact hfiles f hl (by simpa [List.contains, List.elem_eq_mem] using hc)
    · injection h with h2
      subst h2
      simp only [List.mem_flatMap, List.mem_map, List.mem_filter,
        List.contains, List.elem_eq_mem, decide_eq_true_eq]
      constructor
      · rintro ⟨g, ⟨⟨hg, hgc⟩, e, ⟨he, hend⟩, rfl⟩⟩
        exact ⟨hg, hgc, e, he, hend⟩
      · rintro ⟨hf, hfc, e, he, hend⟩
        exact ⟨f, ⟨hf, hfc⟩, e, ⟨he, hend⟩, rfl⟩

/-- C7: the claim requires every file present in the cleaned directory
whose name ends in one of the backend's suffixes to be deleted and
returned.  The program resolves the bare names from `os.listdir` against
the process working directory (`os.path.isfile(i)`, `os.remove(f)`), so
for any directory other than the working directory a matching-suffix
file present in the listed directory is filtered out and never deleted
(first conjunct) although its name matches the suffix set (second
conjunct); a name is collected only when it is also a regular file of
the working directory — effectively only when cleaning the working
directory itself (third conjunct), and even then `os.remove` targets the
working-directory copy.  This contradicts the function's own docstring
("Delete all files made by this module in directory", with `directory`
an arbitrary parameter defaulting to the current directory). -/
theorem C7_clean_cwd_resolution_misses_directory_files :
    clean "slurm" ["a.cluster.sbatch"] [] = Except.ok [] ∧
    pyEndsWith "a.cluster.sbatch" ".cluster.sbatch" = true ∧
    clean "slurm" ["a.cluster.sbatch"] ["a.cluster.sbatch"] =
      Except.ok ["a.cluster.sbatch"] := by
  refine ⟨rfl, by decide, rfl⟩

set_option maxRecDepth 8000 in
/-- C8 counterexample: `make_job_file` assembles the module-load block
before any branching on `QUEUE`, and the normal-mode (Local) branch
writes `precmd` — including the module-load lines — into its script, so
for `modules=["gcc"]` the Local script does contain a `module load gcc`
line, contrary to the claim that the Local backend renders none. -/
theorem C8_local_script_renders_module_lines :
    "module load gcc" ∈ pyLines (normalScript ["gcc"] "/work" "job1" "echo hi") := by
  decide

/-- Helper: folding the module-load accumulation from any accumulator
prepends the accumulator to the block built from the empty string. -/
theorem modulesBlock_foldl (ms : List String) : ∀ acc : String,
    ms.foldl (fun a m => a ++ ("module load " ++ m ++ "\n")) acc =
      acc ++ modulesBlock ms := by
  induction ms with
  | nil => intro acc; simp [modulesBlock]
  | cons m ms ih =>
    intro acc
    have h1 : modulesBlock (m :: ms) =
        ms.foldl (fun a m => a ++ ("module load " ++ m ++ "\n"))
          ("module load " ++ m ++ "\n") := rfl
    rw [List.foldl_cons, ih, h1, ih, String.append_assoc]

/-- Helper: `modulesBlock` renders one `module load` line per module, in
order. -/
theorem modulesBlock_cons (m : String) (ms : List String) :
    modulesBlock (m :: ms) = ("module load " ++ m ++ "\n") ++ modulesBlock ms :=
  modulesBlock_foldl ms ("module load " ++ m ++ "\n")

/-- Helper: an empty module list renders nothing. -/
theorem modulesBlock_nil : modulesBlock [] = "" := rfl

/-- C8 amended: for every module list, `make_job_file` renders one
environment-module-load line per module, in order, immediately before
the pre-amble — and it does so for all three backends alike, the Local
(normal-mode) script included, since the block is assembled before any
branching on the backend. -/
theorem C8_amended_modules_rendered_for_all_backends :
    (∀ (m : String) (ms : List String),
      modulesBlock (m :: ms) =
        ("module load " ++ m ++ "\n") ++ modulesBlock ms) ∧
    (∀ (modules : List String) (usedir name command : String),
      ∃ pre post,
        normalScript [] usedir name command =
          pre ++ preamble usedir name ++ post ∧
        normalScript modules usedir name command =
          pre ++ modulesBlock modules ++ preamble usedir name ++ post) ∧
    (∀ (modules : List String) (usedir name command : String),
      ∃ pre post,
        slurmCompanionContent [] usedir name command =
          pre ++ preamble usedir name ++ post ∧
        slurmCompanionContent modules usedir name command =
          pre ++ modulesBlock modules ++ preamble usedir name ++ post) ∧
    (∀ (partition time : Option String) (mem : Option Nat) (cores : Nat)
        (modules : List String) (usedir name command : String),
      ∃ pre post,
        torqueScriptContent partition time mem cores [] usedir name command =
          pre ++ preamble usedir name ++ post ∧
        torqueScriptContent partition time mem cores modules usedir name command =
          pre ++ modulesBlock modules ++ preamble usedir name ++ post) := by
  refine ⟨modulesBlock_cons, ?_, ?_, ?_⟩
  · intro modules usedir name command
    refine ⟨"#!/bin/bash\n", command ++ "\n" ++ pstcmd, ?_, ?_⟩ <;>
      simp [normalScript, precmd, modulesBlock_nil, String.append_assoc]
  · intro modules usedir name command
    refine ⟨"#!/bin/bash\n" ++ "mkdir -p $LOCAL_SCRATCH\n",
      command ++ "\n" ++ pstcmd, ?_, ?_⟩ <;>
      simp [slurmCompanionContent, precmd, modulesBlock_nil, String.append_assoc]
  · intro partition time mem cores modules usedir name command
    refine ⟨"#!/bin/bash\n" ++
      (match partition with
        | some p => "#PBS -q " ++ p ++ "\n"
        | none => "") ++
      "#PBS -l nodes=1:ppn=" ++ toString cores ++ "\n" ++
      (match time with
        | some t => "#PBS -l walltime=" ++ t ++ "\n"
        | none => "") ++
      (match mem with
        | some m => "#PBS mem=" ++ toString m ++ "MB\n"
        | none => "") ++
      "#PBS -o " ++ name ++ ".cluster.out\n" ++
      "#PBS -e " ++ name ++ ".cluster.err\n\n" ++
      "mkdir -p $LOCAL_SCRATCH\n",
      command ++ "\n" ++ pstcmd, ?_, ?_⟩ <;>
      simp [torqueScriptContent, precmd, modulesBlock_nil, String.append_assoc]

/-- C9: for the Local backend with `name="job1"`, `command="echo hi"` and
no other options (working directory `/work`), the generated script is
exactly: shebang; directory change, timestamp, job-name announcement;
the command line `echo hi`; exit-code capture, completion timestamp, and
the conditional non-zero-exit notice to stderr — in that order. -/
theorem C9_local_script_exact_content :
    normalScript [] "/work" "job1" "echo hi" =
      "#!/bin/bash\n" ++
      "cd /work\n" ++
      "date +" ++ sq ++ "%d-%H:%M:%S" ++ sq ++ "\n" ++
      "echo \"Running job1\"\n" ++
      "echo hi\n" ++
      "exitcode=$?\n" ++
      "echo Done\n" ++
      "date +" ++ sq ++ "%d-%H:%M:%S" ++ sq ++ "\n" ++
      "if [[ $exitcode != 0 ]]; then\n" ++
      "    echo Exited with code: $? >&2\n" ++
      "fi\n" := by
  rfl

/-- C10 counterexample: a bare integer dependency `0` is falsy in Python,
so `submit_file` skips the dependency handling entirely and builds a
submission command with no dependency flag, while the one-element list
`[0]` is truthy and produces `--dependency=afterok:0` — the bare value is
not treated as a one-element list. -/
theorem C10_falsy_dependency_not_like_singleton :
    submitArgsSlurm "f.sbatch" (some (PyVal.pyInt 0)) =
      Except.ok ["sbatch", "f.sbatch"] ∧
    submitArgsSlurm "f.sbatch" (some (PyVal.pyList [PyVal.pyInt 0])) =
      Except.ok ["sbatch", "--dependency=afterok:0", "f.sbatch"] ∧
    (["sbatch", "f.sbatch"] : List String) ≠
      ["sbatch", "--dependency=afterok:0", "f.sbatch"] := by
  refine ⟨rfl, rfl, by decide⟩

/-- C10 amended: `wait` treats any single handle that is not a list or
tuple exactly as the one-element list holding it, and `submit_file`
treats a single truthy string or integer dependency (non-empty string,
non-zero integer) exactly as the one-element dependency list holding it;
a falsy bare dependency (`0` or `""`) is instead treated as no
dependencies at all. -/
theorem C10_amended_singleton_equivalence :
    (∀ v : PyVal, isListOrTuple v = false →
      waitEntry v = waitEntry (PyVal.pyList [v])) ∧
    (∀ (v : PyVal) (script : String),
      isStrOrInt v = true → pyTruthy v = true →
      submitArgsSlurm script (some v) =
        submitArgsSlurm script (some (PyVal.pyList [v]))) := by
  constructor
  · intro v h
    cases v <;> first
      | rfl
      | simp [isListOrTuple] at h
  · intro v script hsi ht
    cases v with
    | pyStr s =>
      simp [pyTruthy] at ht
      simp [submitArgsSlurm, depsNormalize, pyTruthy, isStrOrInt, ht,
        colonJoin, pyStrOf]
    | pyInt n =>
      simp [pyTruthy] at ht
      simp [submitArgsSlurm, depsNormalize, pyTruthy, isStrOrInt, ht,
        colonJoin, pyStrOf]
    | pyNone => simp [isStrOrInt] at hsi
    | applyResult i => simp [isStrOrInt] at hsi
    | pyList xs => simp [isStrOrInt] at hsi
    | pyTuple xs => simp [isStrOrInt] at hsi

/-- Witness for the amended C10 theorem: the handle `"100"` and the
dependency `7`. -/
theorem C10_amended_witness :
    waitEntry (PyVal.pyStr "100") =
      waitEntry (PyVal.pyList [PyVal.pyStr "100"]) ∧
    submitArgsSlurm "f.sbatch" (some (PyVal.pyInt 7)) =
      submitArgsSlurm "f.sbatch" (some (PyVal.pyList [PyVal.pyInt 7])) :=
  ⟨C10_amended_singleton_equivalence.1 _ rfl,
   C10_amended_singleton_equivalence.2 _ "f.sbatch" rfl (by decide)⟩

end ASErCluster
